import Mathlib

/-!
Verification development for the `task_management` web application
(Next.js frontend + FastAPI backend).

The sources at hand contain the frontend (the dashboard page with
`fetchTasks`, `handleAddTask`, `handleEditTask`, `handleToggleStatus`,
`handleDeleteTask`, `handleLogout`, the home page, and `lib/config.ts`)
together with the repository README and setup guide.  The backend modules
(`main.py`, `auth.py`, `models.py`, `schemas.py`) are referenced by the
README but are not among the sources, so the backend behaviour (token
service, credential store, task CRUD) is modelled from the specification
text; each such definition carries a doc comment saying so.  Frontend
definitions are translated directly from the dashboard page.
-/

namespace TaskMgmt

/-- Modelled from the spec: task priority is an enumeration Low/Medium/High
(backend `models.py` is absent from the sources). -/
inductive Priority
  | Low
  | Medium
  | High
  deriving DecidableEq, Repr

/-- Modelled from the spec: a persisted task row, per the schema
`tasks(id, owner_id fk, title, description, completed, priority, created_at,
updated_at)`; the completion flag is a boolean, timestamps are abstract
instants (backend `models.py` is absent from the sources). -/
structure Task where
  id : Nat
  owner_id : Nat
  title : String
  description : Option String
  completedFlag : Bool
  priority : Priority
  created_at : Nat
  updated_at : Nat
  deriving DecidableEq, Repr

/-- Modelled from the spec: the task store is the set of persisted task rows
together with the next row id the store will assign. -/
structure TaskStore where
  tasks : List Task
  nextId : Nat
  deriving DecidableEq, Repr

/-- The error taxonomy of the spec (section 7). -/
inductive ApiError
  | ValidationError
  | NotFound
  | DuplicateEmail
  | InvalidCredentials
  | InvalidToken
  | Unauthorized
  deriving DecidableEq, Repr

/-- Modelled from the spec: lookup of a task by id scoped to the calling
user's identity; the ownership check is folded into the existence check, so
a task owned by another user is indistinguishable from a nonexistent one
(backend `main.py` is absent from the sources). -/
def findOwned (s : TaskStore) (uid tid : Nat) : Option Task :=
  s.tasks.find? (fun t => t.id == tid && t.owner_id == uid)

/-- Modelled from the spec: `create(userIdentity, title, description?,
priority)` fails with `ValidationError` if the title is empty, otherwise
persists a new row with owner `userIdentity`, completion `false`, and both
timestamps set to now; on failure the store is returned unchanged. -/
def createTask (uid : Nat) (title : String) (descr : Option String)
    (prio : Priority) (now : Nat) (s : TaskStore) :
    Except ApiError Task × TaskStore :=
  if title = "" then (.error .ValidationError, s)
  else
    let t : Task :=
      { id := s.nextId, owner_id := uid, title := title, description := descr,
        completedFlag := false, priority := prio, created_at := now,
        updated_at := now }
    (.ok t, { tasks := s.tasks ++ [t], nextId := s.nextId + 1 })

/-- Partial update payload: each field of `update(userIdentity, taskId,
fields)` may be supplied or omitted. -/
structure TaskUpdate where
  title : Option String
  description : Option (Option String)
  completedFlag : Option Bool
  priority : Option Priority
  deriving DecidableEq, Repr

/-- Replace every row whose id is `tid` by `t'` (the store keeps ids unique,
so at most one row is affected). -/
def replaceTask (s : TaskStore) (tid : Nat) (t' : Task) : TaskStore :=
  { s with tasks := s.tasks.map (fun u => if u.id == tid then t' else u) }

/-- Modelled from the spec: `update` fails with `NotFound` when no task with
that id is owned by the caller (store unchanged); otherwise it updates only
the supplied fields and refreshes the update timestamp. -/
def updateTask (uid tid : Nat) (f : TaskUpdate) (now : Nat) (s : TaskStore) :
    Except ApiError Task × TaskStore :=
  match findOwned s uid tid with
  | none => (.error .NotFound, s)
  | some t =>
    let t' : Task :=
      { t with title := f.title.getD t.title,
               description := f.description.getD t.description,
               completedFlag := f.completedFlag.getD t.completedFlag,
               priority := f.priority.getD t.priority,
               updated_at := now }
    (.ok t', replaceTask s tid t')

/-- Modelled from the spec: `toggle` flips the completion flag, with the same
ownership/`NotFound` semantics as `update`, and refreshes the update
timestamp (every mutation does). -/
def toggleTask (uid tid now : Nat) (s : TaskStore) :
    Except ApiError Task × TaskStore :=
  match findOwned s uid tid with
  | none => (.error .NotFound, s)
  | some t =>
    let t' : Task := { t with completedFlag := !t.completedFlag, updated_at := now }
    (.ok t', replaceTask s tid t')

/-- Modelled from the spec: `delete` permanently removes the row, with the
same ownership/`NotFound` semantics. -/
def deleteTask (uid tid : Nat) (s : TaskStore) :
    Except ApiError Unit × TaskStore :=
  match findOwned s uid tid with
  | none => (.error .NotFound, s)
  | some _ => (.ok (), { s with tasks := s.tasks.filter (fun u => u.id != tid) })

/-- Token TTL: `ACCESS_TOKEN_EXPIRE_MINUTES=30` in the setup guide and
README; time is measured in minutes throughout the token model. -/
def ACCESS_TOKEN_EXPIRE_MINUTES : Nat := 30

/-- The process-wide signing secret (`SECRET_KEY` in the setup guide). -/
def SECRET_KEY : String := "your-secret-key-change-this-in-production"

/-- Modelled from the spec: a signed, self-contained token embedding the
identity claim, an expiry instant, and a signature over both (backend
`auth.py` is absent from the sources). -/
structure Token where
  sub : String
  exp : Nat
  sig : String
  deriving DecidableEq, Repr

/-- Modelled from the spec: the signature of a payload under the process-wide
secret (HMAC is delegated to a library; modelled as a deterministic encoding
of secret, subject and expiry). -/
def signPayload (sub : String) (exp : Nat) : String :=
  SECRET_KEY ++ "|" ++ sub ++ "|" ++ toString exp

/-- Modelled from the spec: `issue(userIdentity)` at time `now` produces a
signed token whose expiry is issuance time plus the fixed TTL. -/
def issue (userIdentity : String) (now : Nat) : Token :=
  { sub := userIdentity, exp := now + ACCESS_TOKEN_EXPIRE_MINUTES,
    sig := signPayload userIdentity (now + ACCESS_TOKEN_EXPIRE_MINUTES) }

/-- Modelled from the spec: `verify(token)` at time `now` fails with
`InvalidToken` on signature mismatch or at or past expiry, and otherwise
returns the identity claim. -/
def verify (tok : Token) (now : Nat) : Except ApiError String :=
  if tok.sig ≠ signPayload tok.sub tok.exp then .error .InvalidToken
  else if tok.exp ≤ now then .error .InvalidToken
  else .ok tok.sub

/-- Modelled from the spec: a persisted user record, per the schema
`users(id, name, email unique, password_hash)`. -/
structure User where
  id : Nat
  name : String
  email : String
  password_hash : String
  deriving DecidableEq, Repr

/-- Modelled from the spec: the credential store holds the user records and
the next row id. -/
structure UserStore where
  users : List User
  nextId : Nat
  deriving DecidableEq, Repr

/-- Modelled from the spec: bcrypt hashing is delegated to a library;
modelled as a deterministic one-way encoding of the plaintext. -/
def hashPwd (pwd : String) : String :=
  "bcrypt$2b$" ++ pwd

/-- Modelled from the spec: password verification recomputes the hash of the
candidate plaintext and compares it with the stored hash. -/
def verifyPwd (pwd stored : String) : Bool :=
  hashPwd pwd == stored

/-- Modelled from the spec: `signup(name, email, password)` fails with
`DuplicateEmail` if the email is already registered (store unchanged), and
otherwise stores a new record holding only the password hash. -/
def signup (name email pwd : String) (s : UserStore) :
    Except ApiError User × UserStore :=
  if s.users.any (fun u => u.email == email) then (.error .DuplicateEmail, s)
  else
    let u : User :=
      { id := s.nextId, name := name, email := email,
        password_hash := hashPwd pwd }
    (.ok u, { users := s.users ++ [u], nextId := s.nextId + 1 })

/-- Modelled from the spec: `login(email, password)` fails with
`InvalidCredentials` if the email is unknown or the hash does not match, and
otherwise delegates to the token service `issue` at the current time. -/
def login (email pwd : String) (now : Nat) (s : UserStore) :
    Except ApiError Token :=
  match s.users.find? (fun u => u.email == email) with
  | none => .error .InvalidCredentials
  | some u =>
    if verifyPwd pwd u.password_hash then .ok (issue u.email now)
    else .error .InvalidCredentials

/-! ## Frontend model

The definitions below are translated from the dashboard page
(`src/unnamed/part_000`, the `'use client'` document). -/

/-- The status filter of the dashboard (`type FilterStatus`). -/
inductive FilterStatus
  | all
  | pending
  | completed
  deriving DecidableEq, Repr

/-- The sort selector of the dashboard (`type SortBy`). -/
inductive SortBy
  | created_at
  | priorityKey
  | statusKey
  deriving DecidableEq, Repr

/-- The string value each sort option carries in the page's select element. -/
def SortBy.toParam : SortBy → String
  | .created_at => "created_at"
  | .priorityKey => "priority"
  | .statusKey => "status"

/-- An HTTP request as the client builds it: method, path, query parameters
in order of appearance in the URL, and headers. -/
structure Request where
  method : String
  path : String
  query : List (String × String)
  headers : List (String × String)
  deriving DecidableEq, Repr

/-- Local browser storage: key/value pairs; `localStorage.getItem` returns
null for a missing key. -/
abbrev LocalStorage := List (String × String)

/-- `localStorage.getItem`: the value of the first binding of the key. -/
def getItem (store : LocalStorage) (key : String) : Option String :=
  (store.find? (fun kv => kv.1 == key)).map (fun kv => kv.2)

/-- `localStorage.removeItem`: drops every binding of the key. -/
def removeItem (store : LocalStorage) (key : String) : LocalStorage :=
  store.filter (fun kv => kv.1 != key)

/-- JavaScript string coercion of a possibly-null value inside a template
literal (null renders as "null"). -/
def jsStr : Option String → String
  | none => "null"
  | some s => s

/-- JavaScript string coercion of a boolean inside a template literal. -/
def boolStr (b : Bool) : String :=
  if b then "true" else "false"

/-- The client-side `Task` interface of the dashboard page, as declared
(field name, field type) pairs in declaration order. -/
inductive TsType
  | numberTy
  | stringTy
  | stringOrNull
  | booleanTy
  | priorityLiteral
  deriving DecidableEq, Repr

/-- The fields of `interface Task` in the dashboard page. -/
def taskInterfaceFields : List (String × TsType) :=
  [("id", .numberTy), ("title", .stringTy), ("description", .stringOrNull),
   ("status", .booleanTy), ("priority", .priorityLiteral),
   ("created_at", .stringTy), ("updated_at", .stringOrNull)]

/-- The single GET request `fetchTasks` builds: the URL starts at
`/api/tasks?sort_by=`, a `status` parameter is appended when the status
filter is not `all` (rendering the boolean `filterStatus === 'completed'`),
a `priority` parameter is appended when the priority filter is not `"all"`,
and the bearer token read from local storage goes into the Authorization
header. -/
def fetchTasksRequest (store : LocalStorage) (sb : SortBy)
    (fs : FilterStatus) (fp : String) : Request :=
  let token := getItem store "token"
  let q := [("sort_by", sb.toParam)]
  let q := if fs ≠ FilterStatus.all then
      q ++ [("status", boolStr (fs == FilterStatus.completed))] else q
  let q := if fp ≠ "all" then q ++ [("priority", fp)] else q
  { method := "GET", path := "http://localhost:8000/api/tasks", query := q,
    headers := [("Authorization", "Bearer " ++ jsStr token)] }

/-- `fetchTasks` performs exactly one fetch call. -/
def fetchTasks (store : LocalStorage) (sb : SortBy) (fs : FilterStatus)
    (fp : String) : List Request :=
  [fetchTasksRequest store sb fs fp]

/-- Outcome of a client-side effect: where the router navigates (if
anywhere), and the API requests issued. -/
structure ClientEffect where
  nav : Option String
  requests : List Request
  deriving DecidableEq, Repr

/-- The dashboard page's mount effect: read the token from local storage; if
it is absent (or empty, which is falsy in JavaScript) push `/auth/login` and
return without fetching; otherwise fetch the tasks. -/
def dashboardLoad (store : LocalStorage) (sb : SortBy) (fs : FilterStatus)
    (fp : String) : ClientEffect :=
  match getItem store "token" with
  | none => { nav := some "/auth/login", requests := [] }
  | some token =>
    if token = "" then { nav := some "/auth/login", requests := [] }
    else { nav := none, requests := fetchTasks store sb fs fp }

/-- `handleLogout`: remove the `token`, `userName` and `userEmail` keys from
local storage, then navigate to the home page; no fetch is made. -/
def handleLogout (store : LocalStorage) :
    LocalStorage × Option String × List Request :=
  (removeItem (removeItem (removeItem store "token") "userName") "userEmail",
   some "/", [])

/-- The DELETE request `handleDeleteTask` builds for a task id. -/
def deleteRequest (store : LocalStorage) (taskId : Nat) : Request :=
  { method := "DELETE",
    path := "http://localhost:8000/api/tasks/" ++ toString taskId,
    query := [],
    headers := [("Authorization", "Bearer " ++ jsStr (getItem store "token"))] }

/-- `handleDeleteTask`: if the confirmation dialog is declined, return at
once (no request, task list state untouched); otherwise issue the DELETE
and, when the response is ok, re-run `fetchTasks`, which replaces the task
list state with the fetched data.  `tasksState` is the page's `tasks` state,
`fetched` the list the follow-up fetch would deliver. -/
def handleDeleteTask (confirmed : Bool) (store : LocalStorage) (taskId : Nat)
    (tasksState : List (String × Bool)) (respOk : Bool)
    (fetched : List (String × Bool)) (sb : SortBy) (fs : FilterStatus)
    (fp : String) : List Request × List (String × Bool) :=
  if confirmed = false then ([], tasksState)
  else if respOk then
    ([deleteRequest store taskId] ++ fetchTasks store sb fs fp, fetched)
  else
    ([deleteRequest store taskId], tasksState)

/-! ## Helper lemmas -/

theorem findOwned_eq_none (s : TaskStore) (uid tid : Nat)
    (h : ∀ u ∈ s.tasks, u.id = tid → u.owner_id ≠ uid) :
    findOwned s uid tid = none := by
  apply List.find?_eq_none.mpr
  intro t ht hc
  simp only [Bool.and_eq_true, beq_iff_eq] at hc
  exact h t ht hc.1 hc.2

theorem find?_owned_replace (l : List Task) (tid uid : Nat) (t t' : Task)
    (hfind : l.find? (fun u => u.id == tid && u.owner_id == uid) = some t)
    (hid : t'.id = tid) (hown : t'.owner_id = uid) :
    (l.map (fun u => if u.id == tid then t' else u)).find?
      (fun u => u.id == tid && u.owner_id == uid) = some t' := by
  induction l with
  | nil => simp at hfind
  | cons a l ih =>
    by_cases ha : a.id = tid
    · simp [List.find?_cons, ha, hid, hown]
    · have h1 : (a.id == tid) = false := by
        simp [ha]
      simp only [List.find?_cons, List.map_cons, h1, Bool.false_and,
        Bool.false_eq_true, if_false] at hfind ⊢
      exact ih hfind

theorem find?_append_right {α : Type} (l : List α) (p : α → Bool) (u : α)
    (hl : l.find? p = none) (hu : p u = true) :
    (l ++ [u]).find? p = some u := by
  rw [List.find?_append, hl]
  simp [List.find?, hu]

/-! ## Claim theorems -/

/-- C1: for a task whose id is owned by user `a`, any `update`, `toggle` or
`delete` call under a different identity `b` fails with `NotFound` and
leaves the store exactly unchanged; the scoped lookup itself returns
nothing, so the task is indistinguishable from a nonexistent one. -/
theorem cross_user_not_found (s : TaskStore) (a b tid : Nat)
    (f : TaskUpdate) (now : Nat)
    (howner : ∀ u ∈ s.tasks, u.id = tid → u.owner_id = a)
    (hne : b ≠ a) :
    findOwned s b tid = none ∧
    updateTask b tid f now s = (.error .NotFound, s) ∧
    toggleTask b tid now s = (.error .NotFound, s) ∧
    deleteTask b tid s = (.error .NotFound, s) := by
  have hnone : findOwned s b tid = none := by
    apply findOwned_eq_none
    intro u hu hid
    rw [howner u hu hid]
    exact fun hc => hne hc.symm
  refine ⟨hnone, ?_, ?_, ?_⟩ <;>
    simp [updateTask, toggleTask, deleteTask, hnone]

/-- Witness for C1: a store holding one task (id 10) owned by user 1; user 2
cannot reach it. -/
theorem cross_user_not_found_witness :
    findOwned ⟨[⟨10, 1, "t1", none, false, .Low, 0, 0⟩], 11⟩ 2 10 = none ∧
    updateTask 2 10 ⟨none, none, none, none⟩ 5
        ⟨[⟨10, 1, "t1", none, false, .Low, 0, 0⟩], 11⟩ =
      (.error .NotFound, ⟨[⟨10, 1, "t1", none, false, .Low, 0, 0⟩], 11⟩) ∧
    toggleTask 2 10 5 ⟨[⟨10, 1, "t1", none, false, .Low, 0, 0⟩], 11⟩ =
      (.error .NotFound, ⟨[⟨10, 1, "t1", none, false, .Low, 0, 0⟩], 11⟩) ∧
    deleteTask 2 10 ⟨[⟨10, 1, "t1", none, false, .Low, 0, 0⟩], 11⟩ =
      (.error .NotFound, ⟨[⟨10, 1, "t1", none, false, .Low, 0, 0⟩], 11⟩) :=
  cross_user_not_found ⟨[⟨10, 1, "t1", none, false, .Low, 0, 0⟩], 11⟩ 1 2 10
    ⟨none, none, none, none⟩ 5 (by decide) (by decide)

/-- C2: a token issued at time `T` verifies to the issuing identity at any
check time `t` with `T ≤ t < T + TTL`, and fails with `InvalidToken` at any
`t` with `t ≥ T + TTL`. -/
theorem token_verifies_within_ttl (idy : String) (T t : Nat) :
    (T ≤ t → t < T + ACCESS_TOKEN_EXPIRE_MINUTES →
      verify (issue idy T) t = .ok idy) ∧
    (T + ACCESS_TOKEN_EXPIRE_MINUTES ≤ t →
      verify (issue idy T) t = .error .InvalidToken) := by
  constructor
  · intro _ h2
    have hx : ¬ (T + ACCESS_TOKEN_EXPIRE_MINUTES ≤ t) := by omega
    simp [verify, issue, hx]
  · intro h
    simp [verify, issue, h]

/-- Witness for C2: a token issued at time 0 verifies at time 5 and is
rejected at time 30 (the TTL). -/
theorem token_verifies_within_ttl_witness :
    verify (issue "john@example.com" 0) 5 = .ok "john@example.com" ∧
    verify (issue "john@example.com" 0) 30 = .error .InvalidToken :=
  ⟨(token_verifies_within_ttl "john@example.com" 0 5).1 (by decide) (by decide),
   (token_verifies_within_ttl "john@example.com" 0 30).2 (by decide)⟩

/-- C4: creating a task with an empty title fails with `ValidationError` and
returns the task store exactly unchanged — no row is persisted. -/
theorem create_empty_title_fails (uid : Nat) (descr : Option String)
    (prio : Priority) (now : Nat) (s : TaskStore) :
    createTask uid "" descr prio now s = (.error .ValidationError, s) := by
  simp [createTask]

/-- C5: toggling a task owned by the caller flips exactly its completion
flag (id, owner, title, description, priority and creation timestamp are
untouched; the update timestamp refreshes as on every mutation), and
toggling twice returns the task to its original completion value. -/
theorem toggleTask_found (s : TaskStore) (uid tid now : Nat) (t : Task)
    (h : findOwned s uid tid = some t) :
    toggleTask uid tid now s =
      (.ok { t with completedFlag := !t.completedFlag, updated_at := now },
       replaceTask s tid
         { t with completedFlag := !t.completedFlag, updated_at := now }) := by
  simp [toggleTask, h]

theorem findOwned_replaceTask (s : TaskStore) (uid tid : Nat) (t t' : Task)
    (h : findOwned s uid tid = some t) (hid : t'.id = tid)
    (hown : t'.owner_id = uid) :
    findOwned (replaceTask s tid t') uid tid = some t' :=
  find?_owned_replace s.tasks tid uid t t' h hid hown

theorem toggle_twice_restores (s : TaskStore) (uid tid now now' : Nat)
    (t : Task) (h : findOwned s uid tid = some t) :
    ∃ t1 s1 t2 s2,
      toggleTask uid tid now s = (.ok t1, s1) ∧
      t1.completedFlag = !t.completedFlag ∧
      t1.id = t.id ∧ t1.owner_id = t.owner_id ∧ t1.title = t.title ∧
      t1.description = t.description ∧ t1.priority = t.priority ∧
      t1.created_at = t.created_at ∧
      toggleTask uid tid now' s1 = (.ok t2, s2) ∧
      t2.completedFlag = t.completedFlag := by
  have hp := List.find?_some h
  simp only [Bool.and_eq_true, beq_iff_eq] at hp
  have h1 := toggleTask_found s uid tid now t h
  have hf1 := findOwned_replaceTask s uid tid t
    { t with completedFlag := !t.completedFlag, updated_at := now } h hp.1 hp.2
  have h2 := toggleTask_found
    (replaceTask s tid { t with completedFlag := !t.completedFlag, updated_at := now })
    uid tid now'
    { t with completedFlag := !t.completedFlag, updated_at := now } hf1
  exact ⟨_, _, _, _, h1, rfl, rfl, rfl, rfl, rfl, rfl, rfl, h2, by simp⟩

/-- Witness for C5: toggling task 1 (initially pending) of user 7 twice. -/
theorem toggle_twice_restores_witness :
    ∃ t1 s1 t2 s2,
      toggleTask 7 1 3 ⟨[⟨1, 7, "a", none, false, .Low, 0, 0⟩], 2⟩ = (.ok t1, s1) ∧
      t1.completedFlag = !(false : Bool) ∧
      t1.id = 1 ∧ t1.owner_id = 7 ∧ t1.title = "a" ∧
      t1.description = none ∧ t1.priority = .Low ∧
      t1.created_at = 0 ∧
      toggleTask 7 1 4 s1 = (.ok t2, s2) ∧
      t2.completedFlag = false :=
  toggle_twice_restores ⟨[⟨1, 7, "a", none, false, .Low, 0, 0⟩], 2⟩ 7 1 3 4
    ⟨1, 7, "a", none, false, .Low, 0, 0⟩ rfl

/-- C3: after a successful signup, login with the same credentials succeeds
and yields a token that `verify` accepts for the same identity; login fails
with `InvalidCredentials` when the stored hash does not match the supplied
password, and likewise when the email is unknown. -/
theorem signup_login_roundtrip :
    (∀ (nm email pwd : String) (s : UserStore) (u : User) (s' : UserStore)
        (T : Nat),
      signup nm email pwd s = (.ok u, s') →
      ∃ tok, login email pwd T s' = .ok tok ∧ verify tok T = .ok email) ∧
    (∀ (email pwd : String) (s : UserStore) (u : User) (T : Nat),
      s.users.find? (fun v => v.email == email) = some u →
      verifyPwd pwd u.password_hash = false →
      login email pwd T s = .error .InvalidCredentials) ∧
    (∀ (email pwd : String) (s : UserStore) (T : Nat),
      (∀ u ∈ s.users, u.email ≠ email) →
      login email pwd T s = .error .InvalidCredentials) := by
  refine ⟨?_, ?_, ?_⟩
  · intro nm email pwd s u s' T h
    unfold signup at h
    by_cases hdup : s.users.any (fun v => v.email == email)
    · rw [if_pos hdup] at h
      rw [Prod.mk.injEq] at h
      exact absurd h.1 (fun hc => Except.noConfusion hc)
    · rw [if_neg hdup] at h
      simp only [Prod.mk.injEq, Except.ok.injEq] at h
      obtain ⟨hu, hs⟩ := h
      have hnone : s.users.find? (fun v => v.email == email) = none := by
        apply List.find?_eq_none.mpr
        intro v hv
        have hall := List.any_eq_true.not.mp hdup
        push_neg at hall
        intro hc
        exact hall v hv hc
      have hfind : s'.users.find? (fun v => v.email == email) = some u := by
        rw [← hs, ← hu]
        exact find?_append_right s.users _ _ hnone (by simp)
      refine ⟨issue u.email T, ?_, ?_⟩
      · simp [login, hfind, verifyPwd, ← hu]
      · have hue : u.email = email := by
          rw [← hu]
        have hlt : ¬ (T + ACCESS_TOKEN_EXPIRE_MINUTES ≤ T) := by
          simp [ACCESS_TOKEN_EXPIRE_MINUTES]
        simp [verify, issue, hue, hlt]
  · intro email pwd s u T hfind hbad
    simp [login, hfind, hbad]
  · intro email pwd s T hnone
    have h : s.users.find? (fun v => v.email == email) = none := by
      apply List.find?_eq_none.mpr
      intro v hv hc
      exact hnone v hv (by simpa using hc)
    simp [login, h]

/-- Witness for C3: signs up John, logs in with the right password, and
fails with the wrong password and with an unknown email. -/
theorem signup_login_roundtrip_witness :
    (∃ tok,
      login "john@example.com" "password123" 3
          ⟨[⟨0, "John", "john@example.com", hashPwd "password123"⟩], 1⟩ =
        .ok tok ∧
      verify tok 3 = .ok "john@example.com") ∧
    login "john@example.com" "wrongpass" 3
        ⟨[⟨0, "John", "john@example.com", hashPwd "password123"⟩], 1⟩ =
      .error .InvalidCredentials ∧
    login "nobody@example.com" "password123" 3 ⟨[], 0⟩ =
      .error .InvalidCredentials :=
  ⟨signup_login_roundtrip.1 "John" "john@example.com" "password123" ⟨[], 0⟩
      ⟨0, "John", "john@example.com", hashPwd "password123"⟩
      ⟨[⟨0, "John", "john@example.com", hashPwd "password123"⟩], 1⟩ 3 rfl,
   signup_login_roundtrip.2.1 "john@example.com" "wrongpass"
      ⟨[⟨0, "John", "john@example.com", hashPwd "password123"⟩], 1⟩
      ⟨0, "John", "john@example.com", hashPwd "password123"⟩ 3 rfl (by decide),
   signup_login_roundtrip.2.2 "nobody@example.com" "password123" ⟨[], 0⟩ 3
      (by simp)⟩

/-- C6 counterexample: the client-side `Task` interface of the dashboard
page has no field named `completed` at all — the boolean completion flag it
declares is named `status`. -/
theorem task_interface_lacks_completed_field :
    taskInterfaceFields.filter (fun f => f.1 == "completed") = [] := by
  decide

/-- C6 (amended): every successful create returns a task whose completion
flag is false, whose owner is the calling user, and whose two timestamps
both equal the creation time; the task object exposed at the client
interface carries its boolean completion flag under the field name
`status` (not `completed`). -/
theorem create_defaults_and_interface (uid : Nat) (title : String)
    (descr : Option String) (prio : Priority) (now : Nat) (s : TaskStore)
    (t : Task) (s' : TaskStore)
    (h : createTask uid title descr prio now s = (.ok t, s')) :
    t.completedFlag = false ∧ t.owner_id = uid ∧ t.created_at = now ∧
    t.updated_at = now ∧
    ("status", TsType.booleanTy) ∈ taskInterfaceFields := by
  unfold createTask at h
  by_cases ht : title = ""
  · rw [if_pos ht, Prod.mk.injEq] at h
    exact absurd h.1 (fun hc => Except.noConfusion hc)
  · rw [if_neg ht] at h
    simp only [Prod.mk.injEq, Except.ok.injEq] at h
    rw [← h.1]
    refine ⟨rfl, rfl, rfl, rfl, ?_⟩
    decide

/-- Witness for C6 at the spec's example input `title:"Buy milk",
priority:Low`. -/
theorem create_defaults_and_interface_witness :
    (Task.mk 0 5 "Buy milk" none false .Low 7 7).completedFlag = false ∧
    (Task.mk 0 5 "Buy milk" none false .Low 7 7).owner_id = 5 ∧
    (Task.mk 0 5 "Buy milk" none false .Low 7 7).created_at = 7 ∧
    (Task.mk 0 5 "Buy milk" none false .Low 7 7).updated_at = 7 ∧
    ("status", TsType.booleanTy) ∈ taskInterfaceFields :=
  create_defaults_and_interface 5 "Buy milk" none .Low 7 ⟨[], 0⟩
    (Task.mk 0 5 "Buy milk" none false .Low 7 7)
    ⟨[Task.mk 0 5 "Buy milk" none false .Low 7 7], 1⟩ rfl

/-- C7: `fetchTasks` issues exactly one GET request to the tasks endpoint;
its query always carries `sort_by` set to the selected sort key, carries
`status=true` exactly when the status filter is `completed` and
`status=false` exactly when it is `pending` (no `status` parameter for
`all`), and carries the `priority` parameter exactly when the priority
filter is not `"all"`. -/
theorem fetchTasks_request_shape (store : LocalStorage) (sb : SortBy)
    (fs : FilterStatus) (fp : String) :
    fetchTasks store sb fs fp = [fetchTasksRequest store sb fs fp] ∧
    (fetchTasksRequest store sb fs fp).method = "GET" ∧
    (fetchTasksRequest store sb fs fp).path =
      "http://localhost:8000/api/tasks" ∧
    ("sort_by", sb.toParam) ∈ (fetchTasksRequest store sb fs fp).query ∧
    (("status", "true") ∈ (fetchTasksRequest store sb fs fp).query ↔
      fs = FilterStatus.completed) ∧
    (("status", "false") ∈ (fetchTasksRequest store sb fs fp).query ↔
      fs = FilterStatus.pending) ∧
    (∀ v, ("priority", v) ∈ (fetchTasksRequest store sb fs fp).query ↔
      (fp ≠ "all" ∧ v = fp)) := by
  cases fs <;> by_cases hfp : fp = "all" <;>
    simp [fetchTasks, fetchTasksRequest, boolStr, hfp]

/-- C8: on dashboard load, when local storage holds no token the client
navigates to the login page and issues no request; every request the load
does issue happens under a stored nonempty token and carries it in the
Authorization Bearer header, aimed at the tasks endpoint. -/
theorem dashboard_requires_token (store : LocalStorage) (sb : SortBy)
    (fs : FilterStatus) (fp : String) :
    (getItem store "token" = none →
      dashboardLoad store sb fs fp =
        { nav := some "/auth/login", requests := [] }) ∧
    (∀ r ∈ (dashboardLoad store sb fs fp).requests,
      ∃ tok, getItem store "token" = some tok ∧ tok ≠ "" ∧
        r.headers = [("Authorization", "Bearer " ++ tok)] ∧
        r.path = "http://localhost:8000/api/tasks") := by
  constructor
  · intro hnone
    simp [dashboardLoad, hnone]
  · intro r hr
    rcases hget : getItem store "token" with _ | tok
    · rw [dashboardLoad, hget] at hr
      simp at hr
    · rw [dashboardLoad, hget] at hr
      by_cases he : tok = ""
      · simp [he] at hr
      · simp only [he, if_false, fetchTasks, List.mem_singleton] at hr
        subst hr
        exact ⟨tok, rfl, he, by simp [fetchTasksRequest, hget, jsStr], rfl⟩

/-- Witness for C8: an empty storage redirects to login; a storage holding
token "abc" yields a request bearing it. -/
theorem dashboard_requires_token_witness :
    dashboardLoad [] SortBy.created_at FilterStatus.all "all" =
      { nav := some "/auth/login", requests := [] } ∧
    (∃ tok, getItem [("token", "abc")] "token" = some tok ∧ tok ≠ "" ∧
      (fetchTasksRequest [("token", "abc")] SortBy.created_at
        FilterStatus.all "all").headers = [("Authorization", "Bearer " ++ tok)] ∧
      (fetchTasksRequest [("token", "abc")] SortBy.created_at
        FilterStatus.all "all").path = "http://localhost:8000/api/tasks") :=
  ⟨(dashboard_requires_token [] SortBy.created_at FilterStatus.all "all").1 rfl,
   (dashboard_requires_token [("token", "abc")] SortBy.created_at
      FilterStatus.all "all").2
     (fetchTasksRequest [("token", "abc")] SortBy.created_at
       FilterStatus.all "all")
     (by simp [dashboardLoad, getItem, fetchTasks])⟩

theorem find?_filter_ne (l : List (String × String)) (k q : String) :
    List.find? (fun kv => kv.1 == q) (l.filter (fun kv => kv.1 != k)) =
      if q = k then none else List.find? (fun kv => kv.1 == q) l := by
  induction l with
  | nil => simp
  | cons kv tl ih =>
    by_cases hk : kv.1 = k
    · have h1 : (kv.1 != k) = false := by
        simp [hk]
      rw [List.filter_cons, h1]
      simp only [Bool.false_eq_true, if_false]
      rw [ih]
      by_cases hq : q = k
      · simp [hq]
      · have h2 : (kv.1 == q) = false := by
          simp [hk]
          exact fun hc => hq hc.symm
        simp [hq, List.find?_cons, h2]
    · have h1 : (kv.1 != k) = true := by
        simp [hk]
      rw [List.filter_cons, h1]
      simp only [if_true]
      by_cases hq2 : kv.1 = q
      · have h2 : (kv.1 == q) = true := by
          simp [hq2]
        have hqk : ¬ q = k := fun hc => hk (hq2.trans hc)
        simp [List.find?_cons, h2, hqk]
      · have h2 : (kv.1 == q) = false := by
          simp [hq2]
        simp [List.find?_cons, h2, ih]

theorem getItem_removeItem (st : LocalStorage) (k q : String) :
    getItem (removeItem st k) q = if q = k then none else getItem st q := by
  unfold getItem removeItem
  rw [find?_filter_ne]
  by_cases hq : q = k
  · rw [if_pos hq, if_pos hq]
    rfl
  · rw [if_neg hq, if_neg hq]

/-- C9: logout removes exactly the `token`, `userName` and `userEmail` keys
from local storage (any other key keeps its value), navigates to the home
page, and issues no API request. -/
theorem logout_clears_session (store : LocalStorage) :
    getItem (handleLogout store).1 "token" = none ∧
    getItem (handleLogout store).1 "userName" = none ∧
    getItem (handleLogout store).1 "userEmail" = none ∧
    (∀ q, q ≠ "token" → q ≠ "userName" → q ≠ "userEmail" →
      getItem (handleLogout store).1 q = getItem store q) ∧
    (handleLogout store).2.1 = some "/" ∧
    (handleLogout store).2.2 = [] := by
  refine ⟨?_, ?_, ?_, ?_, rfl, rfl⟩
  · simp [handleLogout, getItem_removeItem]
  · simp [handleLogout, getItem_removeItem]
  · simp [handleLogout, getItem_removeItem]
  · intro q h1 h2 h3
    simp [handleLogout, getItem_removeItem, h1, h2, h3]

/-- Witness for C9: a storage holding the three session keys and a `theme`
key; only the session keys are removed. -/
theorem logout_clears_session_witness :
    getItem (handleLogout
      [("token", "t"), ("userName", "n"), ("userEmail", "e"),
       ("theme", "dark")]).1 "token" = none ∧
    getItem (handleLogout
      [("token", "t"), ("userName", "n"), ("userEmail", "e"),
       ("theme", "dark")]).1 "theme" =
      getItem [("token", "t"), ("userName", "n"), ("userEmail", "e"),
       ("theme", "dark")] "theme" :=
  ⟨(logout_clears_session
      [("token", "t"), ("userName", "n"), ("userEmail", "e"),
       ("theme", "dark")]).1,
   (logout_clears_session
      [("token", "t"), ("userName", "n"), ("userEmail", "e"),
       ("theme", "dark")]).2.2.2.1 "theme" (by decide) (by decide) (by decide)⟩

/-- C10: the delete handler sends nothing and leaves the task list state
untouched when the confirmation is declined; a nonempty batch of requests
implies the user confirmed; and on confirmation the DELETE request for the
task id is among the requests issued. -/
theorem delete_needs_confirmation (store : LocalStorage) (taskId : Nat)
    (tasksState fetched : List (String × Bool)) (respOk : Bool)
    (sb : SortBy) (fs : FilterStatus) (fp : String) :
    handleDeleteTask false store taskId tasksState respOk fetched sb fs fp =
      ([], tasksState) ∧
    (∀ confirmed : Bool,
      (handleDeleteTask confirmed store taskId tasksState respOk fetched
        sb fs fp).1 ≠ [] → confirmed = true) ∧
    (deleteRequest store taskId ∈
      (handleDeleteTask true store taskId tasksState respOk fetched
        sb fs fp).1) := by
  refine ⟨rfl, ?_, ?_⟩
  · intro confirmed hne
    cases confirmed
    · exact absurd rfl hne
    · rfl
  · cases respOk <;> simp [handleDeleteTask]

/-- Witness for C10: with the confirmation declined nothing happens; with it
granted the DELETE for task 1 is issued. -/
theorem delete_needs_confirmation_witness :
    handleDeleteTask false [] 1 [("a", false)] false [] SortBy.created_at
      FilterStatus.all "all" = ([], [("a", false)]) ∧
    (true : Bool) = true ∧
    deleteRequest [] 1 ∈
      (handleDeleteTask true [] 1 [("a", false)] false [] SortBy.created_at
        FilterStatus.all "all").1 :=
  ⟨(delete_needs_confirmation [] 1 [("a", false)] [] false SortBy.created_at
      FilterStatus.all "all").1,
   (delete_needs_confirmation [] 1 [("a", false)] [] false SortBy.created_at
      FilterStatus.all "all").2.1 true (by simp [handleDeleteTask]),
   (delete_needs_confirmation [] 1 [("a", false)] [] false SortBy.created_at
      FilterStatus.all "all").2.2⟩

end TaskMgmt
